import Mathlib

/-!
# Verification of the ODR-DabMod real-time output subsystem

Shallow embedding of the parts of `OutputUHD.cpp`, `OutputUHDFeedback.cpp` and
`MemlessPoly.cpp` that the specification's claims are about, together with
theorems settling each claim.

Machine integers are modelled as `Nat`/`Int` with explicit reductions modulo
`2^32` (`uint32_t`) and `2^64` (`uint64_t`) where the C code performs unsigned
arithmetic.  Floating-point quantities that only flow through comparisons or
are copied verbatim are modelled as rationals.
-/

namespace ODRDabMod

/-! ## Timestamps (`OutputUHD::handle_frame`, lines 753-781)

A DAB timestamp is a pair (seconds, pps-ticks) with ticks counted at
16.384 MHz.  `handle_frame` predicts the timestamp of the current frame from
the previous frame's timestamp and the frame's sample count. -/

/-- `2^32`, the modulus of C `uint32_t` arithmetic. -/
def u32Mod : Nat := 4294967296

/-- `2^64`, the modulus of C `uint64_t` arithmetic. -/
def u64Mod : Nat := 18446744073709551616

/-- Fuel-indexed unfolding of the carry loop in `OutputUHD::handle_frame`:
`while (expected_pps >= 16384000) { expected_sec++; expected_pps -= 16384000; }`
where `expected_sec` and `expected_pps` are `uint32_t`.  Each iteration strictly
decreases `expected_pps`, so fuel equal to the initial `expected_pps` suffices. -/
def carryPpsGo : Nat → Nat → Nat → Nat × Nat
  | 0, sec, pps => (sec, pps)
  | fuel + 1, sec, pps =>
    if 16384000 ≤ pps then carryPpsGo fuel ((sec + 1) % u32Mod) (pps - 16384000)
    else (sec, pps)

/-- The carry loop of `OutputUHD::handle_frame` (lines 764-767). -/
def carryPps (sec pps : Nat) : Nat × Nat := carryPpsGo pps sec pps

/-- The tick increment computed in `OutputUHD::handle_frame` (line 755):
`uint64_t increment = (uint64_t)sizeIn * 16384000ul / (uint64_t)myConf.sampleRate`. -/
def tsIncrement (n rate : Nat) : Nat := n * 16384000 % u64Mod / rate

/-- `OutputUHD::handle_frame` lines 753-767: the expected timestamp of the
current frame, computed from the previous frame's timestamp `(lastSec, lastPps)`
(both `uint32_t`), the frame's sample count `n` and the sample rate:
`expected_sec = last_tx_second + increment / 16384000`,
`expected_pps = last_tx_pps + increment % 16384000`, followed by the carry loop. -/
def tsExpected (lastSec lastPps n rate : Nat) : Nat × Nat :=
  let inc := tsIncrement n rate
  carryPps ((lastSec + inc / 16384000) % u32Mod) ((lastPps + inc % 16384000) % u32Mod)

/-- Modelled from the spec: the specification's timestamp arithmetic — "adding
N samples at sample-rate R advances the stamp by N·16 384 000 / R ticks,
carrying into seconds".  This also stands in for `frame_timestamp::operator+=`
(TimestampDecoder.h), which is not among the provided sources but is what
`OutputUHDFeedback::set_tx_frame` uses to shift the capture timestamp by
`skip / sampleRate` seconds, i.e. by `skip` samples at the sample rate. -/
def specAdvance (sec pps n rate : Nat) : Nat × Nat :=
  let t := pps + n * 16384000 / rate
  (sec + t / 16384000, t % 16384000)

theorem carryPpsGo_eq (fuel : Nat) : ∀ sec pps, pps ≤ fuel → sec < u32Mod →
    carryPpsGo fuel sec pps = ((sec + pps / 16384000) % u32Mod, pps % 16384000) := by
  induction fuel with
  | zero =>
    intro sec pps hp hs
    simp only [carryPpsGo]
    have hp0 : pps = 0 := Nat.le_zero.mp hp
    subst hp0
    simp [u32Mod] at hs ⊢
    omega
  | succ fuel ih =>
    intro sec pps hp hs
    simp only [carryPpsGo]
    by_cases h : 16384000 ≤ pps
    · rw [if_pos h]
      rw [ih ((sec + 1) % u32Mod) (pps - 16384000) (by omega)
        (Nat.mod_lt _ (by simp [u32Mod]))]
      simp only [u32Mod, Prod.mk.injEq] at hs ⊢
      constructor
      · omega
      · omega
    · rw [if_neg h]
      simp only [u32Mod, Prod.mk.injEq] at hs ⊢
      constructor
      · omega
      · omega

theorem carryPps_eq (sec pps : Nat) (hs : sec < u32Mod) :
    carryPps sec pps = ((sec + pps / 16384000) % u32Mod, pps % 16384000) :=
  carryPpsGo_eq pps sec pps le_rfl hs

/-- Closed form for `tsExpected` when the previous pps value is in range. -/
theorem tsExpected_eq (lastSec lastPps n rate : Nat) (hp : lastPps < 16384000) :
    tsExpected lastSec lastPps n rate =
      ((lastSec + (lastPps + tsIncrement n rate) / 16384000) % u32Mod,
       (lastPps + tsIncrement n rate) % 16384000) := by
  unfold tsExpected
  rw [carryPps_eq _ _ (Nat.mod_lt _ (by simp [u32Mod]))]
  set k := tsIncrement n rate with hk
  simp only [u32Mod, Prod.mk.injEq]
  constructor
  · omega
  · omega

/-- The increment is exact (no 64-bit truncation, no rounding) when the rate
divides 16 384 000 and the tick product fits in 64 bits. -/
theorem tsIncrement_exact (n rate : Nat) (hdvd : rate ∣ 16384000)
    (hov : n * 16384000 < u64Mod) :
    tsIncrement n rate = n * (16384000 / rate) := by
  unfold tsIncrement
  rw [Nat.mod_eq_of_lt hov, Nat.mul_div_assoc n hdvd]

theorem tsExpected_pps_lt (sec pps n rate : Nat) (hp : pps < 16384000) :
    (tsExpected sec pps n rate).2 < 16384000 := by
  rw [tsExpected_eq sec pps n rate hp]
  exact Nat.mod_lt _ (by norm_num)

/-- C1 (amended): timestamp arithmetic of `OutputUHD::handle_frame`.
(1) The expected pps value always stays in [0, 16 384 000).
(2) Advancing by N samples and then by M samples equals advancing once by
    N + M samples, provided the sample rate divides 16 384 000 ticks (true in
    particular for the standard 2 048 000 S/s DAB rate) and the tick product
    does not overflow 64 bits.  (For rates that do not divide 16 384 000, such
    as the 3 200 000 S/s USRP1 rate from the sample configuration, the per-call
    rounding of the increment breaks additivity.)
(3) The transmitter's expected-timestamp computation coincides with the
    specification's advance (`specAdvance`, with N the frame's sample count)
    whenever no `uint32_t`/`uint64_t` wrap-around occurs. -/
theorem c1_timestamp_advance_amended :
    (∀ sec pps n rate, 0 < rate → pps < 16384000 →
        (tsExpected sec pps n rate).2 < 16384000) ∧
    (∀ sec pps n m rate, 0 < rate → rate ∣ 16384000 → pps < 16384000 →
        (n + m) * 16384000 < u64Mod →
        tsExpected (tsExpected sec pps n rate).1 (tsExpected sec pps n rate).2 m rate
          = tsExpected sec pps (n + m) rate) ∧
    (∀ sec pps n rate, pps < 16384000 → n * 16384000 < u64Mod →
        sec + (pps + n * 16384000 / rate) / 16384000 < u32Mod →
        tsExpected sec pps n rate = specAdvance sec pps n rate) := by
  refine ⟨fun sec pps n rate _ hp => tsExpected_pps_lt sec pps n rate hp, ?_, ?_⟩
  · intro sec pps n m rate hrate hdvd hp hov
    have hovn : n * 16384000 < u64Mod :=
      lt_of_le_of_lt (Nat.mul_le_mul_right _ (Nat.le_add_right n m)) hov
    have hovm : m * 16384000 < u64Mod :=
      lt_of_le_of_lt (Nat.mul_le_mul_right _ (Nat.le_add_left m n)) hov
    have hq : tsIncrement n rate + tsIncrement m rate = tsIncrement (n + m) rate := by
      rw [tsIncrement_exact n rate hdvd hovn, tsIncrement_exact m rate hdvd hovm,
        tsIncrement_exact (n + m) rate hdvd hov, Nat.add_mul]
    have hp2 : (tsExpected sec pps n rate).2 < 16384000 := tsExpected_pps_lt sec pps n rate hp
    rw [tsExpected_eq sec pps n rate hp] at hp2 ⊢
    rw [tsExpected_eq _ _ m rate hp2, tsExpected_eq sec pps (n + m) rate hp, ← hq]
    set a := tsIncrement n rate
    set b := tsIncrement m rate
    simp only [u32Mod, Prod.mk.injEq]
    constructor
    · omega
    · omega
  · intro sec pps n rate hp hov hsec
    have hinc : tsIncrement n rate = n * 16384000 / rate := by
      unfold tsIncrement
      rw [Nat.mod_eq_of_lt hov]
    rw [tsExpected_eq sec pps n rate hp, hinc]
    unfold specAdvance
    simp only [u32Mod, Prod.mk.injEq] at hsec ⊢
    exact ⟨by omega, trivial⟩

/-- C1 counterexample: the claim's additivity fails as stated.  At the
3 200 000 S/s rate (the USRP1 rate given in the repository's sample
configuration), starting from timestamp (0, 0), advancing twice by 5 samples
gives pps 50, while advancing once by 10 samples gives pps 51. -/
theorem c1_timestamp_advance_counterexample :
    tsExpected (tsExpected 0 0 5 3200000).1 (tsExpected 0 0 5 3200000).2 5 3200000
      ≠ tsExpected 0 0 10 3200000 := by decide

/-- Witness for `c1_timestamp_advance_amended` at concrete inputs
(rate 2 048 000, which divides 16 384 000). -/
theorem c1_timestamp_advance_witness :
    (tsExpected 0 12345 7 2048000).2 < 16384000 ∧
    tsExpected (tsExpected 0 0 3 2048000).1 (tsExpected 0 0 3 2048000).2 4 2048000
      = tsExpected 0 0 7 2048000 ∧
    tsExpected 1 2 3 2048000 = specAdvance 1 2 3 2048000 :=
  ⟨c1_timestamp_advance_amended.1 0 12345 7 2048000 (by norm_num) (by norm_num),
   c1_timestamp_advance_amended.2.1 0 0 3 4 2048000 (by norm_num) (by decide)
     (by norm_num) (by decide),
   c1_timestamp_advance_amended.2.2 1 2 3 2048000 (by norm_num) (by decide) (by decide)⟩

/-! ## Transmission-frame duration and static delay
(`OutputUHD.cpp` lines 338-351 and 967-985) -/

/-- `transmission_frame_duration_ms` (OutputUHD.cpp lines 338-351): frame
duration per DAB mode; mode 0 is allowed (mode not yet known), any other
unknown mode raises an error (`Option.none`). -/
def transmissionFrameDurationMs (dabMode : Nat) : Option Nat :=
  match dabMode with
  | 0 => some 0
  | 1 => some 96
  | 2 => some 24
  | 3 => some 24
  | 4 => some 48
  | _ => none

/-- The `staticdelay` branch of `OutputUHD::set_parameter` (lines 967-985):
`adjust` (the value written by the remote-control client, in microseconds) is
compared against the frame duration; values above it reset the delay to 0;
otherwise `adjust` is added to the current delay and the sum is wrapped once
around the frame duration. -/
def setStaticDelay (tfDurationMs current adjust : Int) : Int :=
  if tfDurationMs * 1000 < adjust then 0
  else
    let n := current + adjust
    if tfDurationMs * 1000 < n then n - tfDurationMs * 1000
    else if n < 0 then n + tfDurationMs * 1000
    else n

/-- C4 counterexample: with the mode-1 frame duration of 96 ms, writing
`staticdelay = 96000` to a transmitter whose stored delay is 0 stores 96000,
whereas the claim demands 96000 mod 96000 = 0, a value in [0, 96000). -/
theorem c4_staticdelay_counterexample :
    setStaticDelay 96 0 96000 = 96000 ∧
    ¬ setStaticDelay 96 0 96000 = (96000 : Int) % 96000 ∧
    ¬ setStaticDelay 96 0 96000 < 96000 := by decide

/-- C4 (amended): writing `staticdelay = v` does not store `v mod TF`; it adds
`v` to the previously stored delay and wraps the sum once around the
transmission-frame duration `TF` microseconds (one subtraction if the sum
exceeds `TF`, one addition if it is negative), and any `v > TF` resets the
delay to 0.  Consequently the stored value is congruent to (previous + v)
modulo `TF` whenever `v ≤ TF`, and starting from a delay in [0, TF] with
`v ≥ -TF` it stays in the closed interval [0, TF] — the upper bound `TF`
itself is reachable, so the delay does not always lie in [0, TF). -/
theorem c4_staticdelay_amended (tf current adjust : Int)
    (htf : 0 < tf) (h0 : 0 ≤ current) (h1 : current ≤ tf * 1000)
    (h2 : -(tf * 1000) ≤ adjust) :
    (adjust ≤ tf * 1000 →
      setStaticDelay tf current adjust % (tf * 1000) = (current + adjust) % (tf * 1000)) ∧
    0 ≤ setStaticDelay tf current adjust ∧
    setStaticDelay tf current adjust ≤ tf * 1000 := by
  simp only [setStaticDelay]
  split
  · refine ⟨fun hle => absurd hle (by omega), le_refl 0, by omega⟩
  · rename_i hle
    constructor
    · intro _
      split
      · rw [Int.sub_emod, Int.emod_self, sub_zero, Int.emod_emod_of_dvd _ dvd_rfl]
      · split
        · rw [Int.add_emod, Int.emod_self, add_zero, Int.emod_emod_of_dvd _ dvd_rfl]
        · rfl
    · constructor
      · split
        · omega
        · split
          · omega
          · omega
      · split
        · omega
        · split
          · omega
          · omega

/-- Witness for `c4_staticdelay_amended` with frame duration 96 ms, stored
delay 1000 µs and written value 500 µs. -/
theorem c4_staticdelay_witness :
    ((500 : Int) ≤ 96 * 1000 →
      setStaticDelay 96 1000 500 % (96 * 1000) = (1000 + 500) % (96 * 1000)) ∧
    0 ≤ setStaticDelay 96 1000 500 ∧
    setStaticDelay 96 1000 500 ≤ 96 * 1000 :=
  c4_staticdelay_amended 96 1000 500 (by decide) (by decide) (by decide) (by decide)

/-! ## Predistorter pass-through (`MemlessPoly::internal_process`, lines 298-369)

`Buffer::getLength` counts bytes and a complex float sample occupies
`sizeof(complexf) = 8` bytes.  Buffers are modelled as lists of bytes here
because the defect is a byte-count confusion. -/

/-- The `m_dpd_settings_valid == false` branch of `MemlessPoly::internal_process`:
`dataOut->setLength(dataIn->getLength())` makes the output buffer as long as the
input (its contents after the resize are modelled by `outInit`, assumed of that
length), then `memcpy(dataOut->getData(), dataIn->getData(), sizeOut)` copies
only `sizeOut = getLength() / sizeof(complexf)` bytes — the sample count, not
the byte count. -/
def internalProcessNoDpd (dataIn outInit : List Nat) : List Nat :=
  let sizeOut := dataIn.length / 8
  dataIn.take sizeOut ++ outInit.drop sizeOut

/-- C2: evaluation at the failing input.  For a two-sample (16-byte) input
frame and a zero-initialised output buffer, the fallback path copies only the
first two bytes; the output keeps the input's length but differs from the
input, so the pass-through promised by the specification does not hold. -/
theorem c2_passthrough_code_bug :
    internalProcessNoDpd
        [1, 2, 3, 4, 5, 6, 7, 8, 9, 10, 11, 12, 13, 14, 15, 16]
        [0, 0, 0, 0, 0, 0, 0, 0, 0, 0, 0, 0, 0, 0, 0, 0]
      = [1, 2, 0, 0, 0, 0, 0, 0, 0, 0, 0, 0, 0, 0, 0, 0] ∧
    ¬ internalProcessNoDpd
        [1, 2, 3, 4, 5, 6, 7, 8, 9, 10, 11, 12, 13, 14, 15, 16]
        [0, 0, 0, 0, 0, 0, 0, 0, 0, 0, 0, 0, 0, 0, 0, 0]
      = [1, 2, 3, 4, 5, 6, 7, 8, 9, 10, 11, 12, 13, 14, 15, 16] ∧
    (internalProcessNoDpd
        [1, 2, 3, 4, 5, 6, 7, 8, 9, 10, 11, 12, 13, 14, 15, 16]
        [0, 0, 0, 0, 0, 0, 0, 0, 0, 0, 0, 0, 0, 0, 0, 0]).length = 16 := by decide

/-! ## Coefficient loading (`MemlessPoly::load_coefficients`, lines 102-192,
and `MemlessPoly::set_parameter`, lines 371-394)

The coefficient file is whitespace-separated text; it is modelled as the list
of its numeric tokens (rationals standing for the parsed numbers).  A C++
`operator>>` extraction at end of file yields 0 and raises the eof state
(C++11 semantics for a failed extraction); this is `readToken` on `[]`. -/

/-- Modelled from the spec: `lut_entries` is declared in MemlessPoly.h, which
is not among the provided sources; the specification fixes the lookup table at
32 entries ("a 32-entry complex-float lookup table"), matching the bin comment
in `apply_lut`. -/
def lutEntries : Nat := 32

inductive DpdVariant
  | oddOnlyPoly
  | lookupTable
deriving DecidableEq

/-- The fields of `MemlessPoly` that `load_coefficients` can mutate, plus the
`m_coefs_file` name updated by `set_parameter`. -/
structure PolyState where
  dpdVariant : DpdVariant
  coefsAm : List ℚ
  coefsPm : List ℚ
  lutScalefactor : ℚ
  lut : List ℚ
  dpdSettingsValid : Bool
  coefsFile : String
deriving DecidableEq

/-- One `operator>>` extraction: pops the next token; at end of file the
extracted value is 0 and the eof flag is raised. -/
def readToken : List ℚ → ℚ × List ℚ × Bool
  | [] => (0, [], true)
  | t :: rest => (t, rest, false)

/-- The polynomial read loop of `load_coefficients` (lines 133-150): reads
`k` coefficients, checking for eof after every extraction and throwing
(`Option.none`) when the file ends prematurely. -/
def readPolyCoefs : Nat → List ℚ → Option (List ℚ)
  | 0, _ => some []
  | k + 1, toks =>
    let (a, rest, eofHit) := readToken toks
    if eofHit then none
    else
      match readPolyCoefs k rest with
      | none => none
      | some as => some (a :: as)

/-- The LUT read loop of `load_coefficients` (lines 169-174): reads `k`
values with no eof check whatsoever; extractions past the end of the file
leave 0 in the entry. -/
def readLutValues : Nat → List ℚ → List ℚ
  | 0, _ => []
  | k + 1, toks =>
    let (a, rest, _) := readToken toks
    a :: readLutValues k rest

/-- `MemlessPoly::load_coefficients` (lines 102-192).  `fileOpens` models
whether `std::ifstream` could open the file; `tokens` are the file's numeric
tokens.  `Except.error` models a thrown `std::runtime_error`.  Note the
unknown-format branch (lines 187-191): it logs, clears
`m_dpd_settings_valid` and returns without throwing. -/
def loadCoefficients (st : PolyState) (fileOpens : Bool) (tokens : List ℚ) :
    Except String PolyState :=
  if ¬ fileOpens then .error "MemlessPoly: Could not open file with coefs!"
  else
    let (fmt, rest1, _) := readToken tokens
    if fmt = 1 then
      let (nCoefs, rest2, _) := readToken rest1
      if nCoefs ≤ 0 then .error "MemlessPoly: coefs file has invalid format."
      else if nCoefs ≠ 5 then .error "MemlessPoly: invalid number of coefs"
      else
        match readPolyCoefs 10 rest2 with
        | none => .error "MemlessPoly: coefs file invalid !"
        | some vals =>
            .ok { st with dpdVariant := .oddOnlyPoly,
                          coefsAm := vals.take 5,
                          coefsPm := vals.drop 5,
                          dpdSettingsValid := true }
    else if fmt = 2 then
      let (sf, rest2, _) := readToken rest1
      .ok { st with dpdVariant := .lookupTable,
                    lutScalefactor := sf,
                    lut := readLutValues lutEntries rest2,
                    dpdSettingsValid := true }
    else
      .ok { st with dpdSettingsValid := false }

/-- `MemlessPoly::set_parameter` (lines 371-394), run to completion: a thrown
`ParameterError` leaves the object state as it was and is returned as
`some` error text. On a successful load `m_coefs_file` is updated. -/
def memlessPolySetParameter (st : PolyState) (param value : String)
    (fileOpens : Bool) (tokens : List ℚ) : PolyState × Option String :=
  if param = "ncoefs" then (st, some "Parameter 'ncoefs' is read-only")
  else if param = "coeffile" then
    match loadCoefficients st fileOpens tokens with
    | .ok st' => ({ st' with coefsFile := value }, none)
    | .error e => (st, some e)
  else (st, some ("Parameter '" ++ param ++ "' is not exported by controllable memlesspoly"))

/-- A concrete predistorter state with valid polynomial coefficients loaded. -/
def polyState0 : PolyState :=
  { dpdVariant := .oddOnlyPoly
    coefsAm := [1, 0, 0, 0, 0]
    coefsPm := [0, 0, 0, 0, 0]
    lutScalefactor := 1
    lut := []
    dpdSettingsValid := true
    coefsFile := "oldCoefs" }

theorem readPolyCoefs_short (k : Nat) : ∀ toks : List ℚ, toks.length < k →
    readPolyCoefs k toks = none := by
  induction k with
  | zero => intro toks h; omega
  | succ k ih =>
    intro toks h
    match toks with
    | [] => rfl
    | t :: rest =>
      simp only [readPolyCoefs, readToken, Bool.false_eq_true, if_false]
      rw [ih rest (by simpa using Nat.lt_of_succ_lt_succ h)]

theorem memlessPolySetParameter_coeffile (st : PolyState) (value : String)
    (fileOpens : Bool) (tokens : List ℚ) :
    memlessPolySetParameter st "coeffile" value fileOpens tokens =
      match loadCoefficients st fileOpens tokens with
      | .ok st' => ({ st' with coefsFile := value }, none)
      | .error e => (st, some e) := by
  unfold memlessPolySetParameter
  rw [if_neg (by decide), if_pos rfl]

theorem loadCoefficients_badCount (st : PolyState) (nCoefs : ℚ) (rest : List ℚ)
    (hne : nCoefs ≠ 5) :
    ∃ e, loadCoefficients st true (1 :: nCoefs :: rest) = .error e := by
  simp only [loadCoefficients, readToken]
  by_cases hle : nCoefs ≤ 0
  · simp [hle]
  · simp [hle, hne]

theorem loadCoefficients_polyEof (st : PolyState) (rest : List ℚ)
    (h : rest.length < 10) :
    ∃ e, loadCoefficients st true (1 :: 5 :: rest) = .error e := by
  simp only [loadCoefficients, readToken]
  rw [readPolyCoefs_short 10 rest h]
  norm_num

/-- C5 counterexample: a coefficient file whose format indicator is 3 (an
unknown format) is a parse failure, yet `set_parameter("coeffile", ...)`
returns without error, clears the DPD-enable flag (`m_dpd_settings_valid`)
and updates `m_coefs_file` — the state changes and no parameter error is
surfaced to the remote-control caller. -/
theorem c5_coef_reload_counterexample :
    (memlessPolySetParameter polyState0 "coeffile" "newCoefs" true [3]).2 = none ∧
    ¬ (memlessPolySetParameter polyState0 "coeffile" "newCoefs" true [3]).1 = polyState0 ∧
    (memlessPolySetParameter polyState0 "coeffile" "newCoefs" true [3]).1.dpdSettingsValid
      = false := by decide

/-- C5 (amended): an unopenable file, a wrong polynomial coefficient count, or
a premature end of file while reading polynomial coefficients all leave the
predistorter state (coefficients, enable flag and stored file name) unchanged
and surface a parameter error to the remote-control caller.  An unknown format
indicator, however, surfaces no error and clears the DPD-enable flag (and a
premature end of file in LUT format silently zero-fills the missing entries). -/
theorem c5_coef_reload_amended (st : PolyState) (value : String) :
    (∀ tokens, memlessPolySetParameter st "coeffile" value false tokens
        = (st, some "MemlessPoly: Could not open file with coefs!")) ∧
    (∀ (nCoefs : ℚ) (rest : List ℚ), nCoefs ≠ 5 →
        (memlessPolySetParameter st "coeffile" value true (1 :: nCoefs :: rest)).1 = st ∧
        (memlessPolySetParameter st "coeffile" value true (1 :: nCoefs :: rest)).2.isSome
          = true) ∧
    (∀ rest : List ℚ, rest.length < 10 →
        (memlessPolySetParameter st "coeffile" value true (1 :: 5 :: rest)).1 = st ∧
        (memlessPolySetParameter st "coeffile" value true (1 :: 5 :: rest)).2.isSome
          = true) := by
  refine ⟨fun tokens => rfl, ?_, ?_⟩
  · intro nCoefs rest hne
    obtain ⟨e, he⟩ := loadCoefficients_badCount st nCoefs rest hne
    rw [memlessPolySetParameter_coeffile, he]
    exact ⟨rfl, rfl⟩
  · intro rest hlen
    obtain ⟨e, he⟩ := loadCoefficients_polyEof st rest hlen
    rw [memlessPolySetParameter_coeffile, he]
    exact ⟨rfl, rfl⟩

/-- Witness for `c5_coef_reload_amended`: concrete failing loads against
`polyState0` — an unopenable file, a poly file announcing 3 coefficients, and
a poly file that ends after the count. -/
theorem c5_coef_reload_witness :
    memlessPolySetParameter polyState0 "coeffile" "f" false [1, 5]
      = (polyState0, some "MemlessPoly: Could not open file with coefs!") ∧
    ((memlessPolySetParameter polyState0 "coeffile" "f" true [1, 3]).1 = polyState0 ∧
      (memlessPolySetParameter polyState0 "coeffile" "f" true [1, 3]).2.isSome = true) ∧
    ((memlessPolySetParameter polyState0 "coeffile" "f" true [1, 5]).1 = polyState0 ∧
      (memlessPolySetParameter polyState0 "coeffile" "f" true [1, 5]).2.isSome = true) :=
  ⟨(c5_coef_reload_amended polyState0 "f").1 [1, 5],
   (c5_coef_reload_amended polyState0 "f").2.1 3 [] (by norm_num),
   (c5_coef_reload_amended polyState0 "f").2.2 [] (by norm_num)⟩

/-! ## Frame envelopes and the frame queue
(`OutputUHD.cpp` lines 459-478 and the `UHDWorkerFrameData` model) -/

/-- The timestamp attached to a frame envelope (`struct frame_timestamp`
fields used by OutputUHD.cpp): seconds and pps ticks, validity and refresh
flags, and the ETI frame count FCT. -/
structure FrameTs where
  timestampValid : Bool
  timestampRefresh : Bool
  fct : Int
  timestampSec : Nat
  timestampPps : Nat
deriving DecidableEq

/-- A frame envelope (`UHDWorkerFrameData`): the sample buffer (modelled at
complex-sample granularity, `buf.size() / sizeof(complexf)` samples) and its
timestamp. -/
structure WorkerFrame where
  buf : List (ℚ × ℚ)
  ts : FrameTs
deriving DecidableEq

/-- `FRAMES_MAX_SIZE` (OutputUHD.cpp line 53): the frame queue holds at most
8 frames. -/
def framesMaxSize : Nat := 8

/-- The FCT gate at the end of `OutputUHD::process` (lines 459-478): a frame
whose timestamp has FCT = -1 is logged and dropped; any other frame is handed
to the feedback server and pushed (blocking if full) onto the frame queue that
feeds the SDR worker thread. -/
def processFrameQueuePush (fr : WorkerFrame) (queue : List WorkerFrame) :
    List WorkerFrame :=
  if fr.ts.fct = -1 then queue else queue ++ [fr]

/-- C8: every frame envelope with FCT = -1 is dropped by `OutputUHD::process`;
the frame queue — the only path to the SDR worker — is left unchanged, so such
frames never reach the SDR. -/
theorem c8_fct_drop (fr : WorkerFrame) (queue : List WorkerFrame)
    (h : fr.ts.fct = -1) :
    processFrameQueuePush fr queue = queue ∧
    (fr ∉ queue → fr ∉ processFrameQueuePush fr queue) := by
  unfold processFrameQueuePush
  rw [if_pos h]
  exact ⟨rfl, fun hmem => hmem⟩

/-- Witness for `c8_fct_drop`: a concrete frame with FCT = -1 against an empty
queue. -/
theorem c8_fct_drop_witness :
    processFrameQueuePush ⟨[(1, 2)], ⟨true, false, -1, 10, 20⟩⟩ [] = [] ∧
    ((⟨[(1, 2)], ⟨true, false, -1, 10, 20⟩⟩ : WorkerFrame) ∉ ([] : List WorkerFrame) →
      (⟨[(1, 2)], ⟨true, false, -1, 10, 20⟩⟩ : WorkerFrame)
        ∉ processFrameQueuePush ⟨[(1, 2)], ⟨true, false, -1, 10, 20⟩⟩ []) :=
  c8_fct_drop ⟨[(1, 2)], ⟨true, false, -1, 10, 20⟩⟩ [] rfl

/-! ## Burst transmission (`OutputUHD::tx_frame`, lines 836-874) -/

/-- One `send` call issued by `OutputUHD::tx_frame`: the sample offset into
the frame, the number of samples, the `end_of_burst` flag and the time-spec
of the metadata actually passed to the driver. -/
structure TxChunk where
  offset : Nat
  samps : Nat
  endOfBurst : Bool
  timeSpec : ℚ
deriving DecidableEq

/-- The chunking loop of `OutputUHD::tx_frame` (lines 844-873), with the
driver modelled as accepting every requested sample (`send` returns
`samps_to_send`) and `running` staying true.  Each iteration re-initialises
`md_tx` from `md`, so the time-spec passed to `send` is `md`'s on every
chunk: the `md_tx.time_spec = md.time_spec + num_tx_samps/sampleRate`
assignment after the send writes to the local copy that the next iteration
overwrites.  `end_of_burst` is
`sourceContainsTimestamp && (refresh || ts_update) && samps_to_send <= usrp_max_num_samps`.
Fuel equal to the remaining sample count suffices, since every non-final
iteration consumes at least one sample. -/
def txFrameGo (sourceCT refresh tsUpd : Bool) (maxSamps sizeIn : Nat)
    (timeSpec : ℚ) : Nat → Nat → List TxChunk
  | 0, _ => []
  | fuel + 1, acc =>
    if acc < sizeIn then
      let toSend := min (sizeIn - acc) maxSamps
      let eob := sourceCT && (refresh || tsUpd) && decide (toSend ≤ maxSamps)
      if toSend = 0 then [⟨acc, toSend, eob, timeSpec⟩]
      else ⟨acc, toSend, eob, timeSpec⟩ ::
        txFrameGo sourceCT refresh tsUpd maxSamps sizeIn timeSpec fuel (acc + toSend)
    else []

/-- `OutputUHD::tx_frame`: the list of `send` calls issued for a frame of
`sizeIn` samples.  When `muting` is set the while condition fails at once and
nothing is sent. -/
def txFrameChunks (muting sourceCT refresh tsUpd : Bool) (sizeIn maxSamps : Nat)
    (timeSpec : ℚ) : List TxChunk :=
  if muting then [] else txFrameGo sourceCT refresh tsUpd maxSamps sizeIn timeSpec sizeIn 0

/-- C3: evaluation at the failing input.  A frame of 8 samples with
`max_num_samps = 4`, refresh set and timestamps in use is sent as two chunks
of 4 samples — but `end_of_burst` is set on *both* chunks (the guard
`samps_to_send <= usrp_max_num_samps` is always true), not only on the last,
and both chunks carry the same unadvanced time-spec. -/
theorem c3_chunking_code_bug :
    txFrameChunks false true true false 8 4 (5 : ℚ) =
      [⟨0, 4, true, 5⟩, ⟨4, 4, true, 5⟩] ∧
    ∃ c, (txFrameChunks false true true false 8 4 (5 : ℚ)).head? = some c ∧
      c.endOfBurst = true ∧ c.offset + c.samps < 8 := by
  refine ⟨by decide, ⟨⟨0, 4, true, 5⟩, by decide⟩⟩

/-! ## Asynchronous event loop (`OutputUHD::print_async_thread`,
lines 876-941) and pop prebuffering (`OutputUHD::workerthread`,
lines 680-704) -/

/-- The UHD asynchronous event codes handled by `print_async_thread`. -/
inductive AsyncEvent
  | burstAck
  | underflow
  | seqError
  | timeError
  | underflowInPacket
  | seqErrorInBurst
  | unknownEvent
deriving DecidableEq

/-- The monotonically increasing counters of the async thread. -/
structure AsyncCounters where
  numUnderflows : Nat
  numLatePackets : Nat
deriving DecidableEq

/-- The `switch (async_md.event_code)` of `OutputUHD::print_async_thread`
(lines 883-910): updated counters and the `failure` flag (which controls only
the alert log line).  Note that `EVENT_CODE_UNDERFLOW_IN_PACKET` sets
`failure` but does not touch `num_underflows`. -/
def printAsyncStep (c : AsyncCounters) (ev : AsyncEvent) : AsyncCounters × Bool :=
  match ev with
  | .burstAck => (c, false)
  | .underflow => ({ c with numUnderflows := c.numUnderflows + 1 }, false)
  | .seqError => (c, true)
  | .timeError => ({ c with numLatePackets := c.numLatePackets + 1 }, false)
  | .underflowInPacket => (c, true)
  | .seqErrorInBurst => (c, true)
  | .unknownEvent => (c, true)

/-- The prebuffering update at the bottom of the worker loop
(`OutputUHD::workerthread`, lines 695-703): if the underflow counter advanced
since the previous frame, the next `wait_and_pop` waits for a full queue
(`FRAMES_MAX_SIZE`), otherwise for a single frame. -/
def popPrebuffering (lastNumUnderflows numUnderflows : Nat) : Nat :=
  if lastNumUnderflows < numUnderflows then framesMaxSize else 1

/-- C7 counterexample: an `UNDERFLOW_IN_PACKET` event does not increment the
underflow counter (it only raises the alert flag), contradicting the claim
that both `UNDERFLOW` and `UNDERFLOW_IN_PACKET` increment it. -/
theorem c7_underflow_counterexample :
    ¬ (printAsyncStep ⟨0, 0⟩ .underflowInPacket).1.numUnderflows = 0 + 1 ∧
    (printAsyncStep ⟨0, 0⟩ .underflowInPacket).1.numUnderflows = 0 ∧
    (printAsyncStep ⟨0, 0⟩ .underflowInPacket).2 = true := by decide

/-- C7 (amended): only `UNDERFLOW` increments the underflow counter;
`UNDERFLOW_IN_PACKET` is reported as a failure alert but leaves the counter
unchanged.  Whenever the counter has advanced since the previous frame, the
next pop from the frame queue uses full prebuffering (waits until
`FRAMES_MAX_SIZE = 8` frames are present), and otherwise waits for one. -/
theorem c7_underflow_amended (c : AsyncCounters) (lastNum num : Nat) :
    (printAsyncStep c .underflow).1.numUnderflows = c.numUnderflows + 1 ∧
    (printAsyncStep c .underflowInPacket).1.numUnderflows = c.numUnderflows ∧
    (printAsyncStep c .underflowInPacket).2 = true ∧
    (lastNum < num → popPrebuffering lastNum num = framesMaxSize) ∧
    (¬ lastNum < num → popPrebuffering lastNum num = 1) := by
  refine ⟨rfl, rfl, rfl, fun h => ?_, fun h => ?_⟩
  · unfold popPrebuffering
    rw [if_pos h]
  · unfold popPrebuffering
    rw [if_neg h]

/-- Witness for `c7_underflow_amended` at concrete counters 3 → 5. -/
theorem c7_underflow_witness :
    (printAsyncStep ⟨7, 2⟩ .underflow).1.numUnderflows = 7 + 1 ∧
    (printAsyncStep ⟨7, 2⟩ .underflowInPacket).1.numUnderflows = 7 ∧
    (printAsyncStep ⟨7, 2⟩ .underflowInPacket).2 = true ∧
    ((3 : Nat) < 5 → popPrebuffering 3 5 = framesMaxSize) ∧
    (¬ (3 : Nat) < 5 → popPrebuffering 3 5 = 1) :=
  c7_underflow_amended ⟨7, 2⟩ 3 5

/-! ## The transmit loop (`OutputUHD::handle_frame`, lines 709-834, and
`OutputUHD::workerthread`, lines 660-707)

`get_real_secs()` values are modelled as rationals; `TIMESTAMP_ABORT_FUTURE`
is declared in OutputUHD.h (not among the provided sources) and is passed as
the parameter `abortFuture`. -/

/-- The transmitter-side state read and written by `handle_frame`. -/
structure TxLoopState where
  muting : Bool
  muteNoTimestamps : Bool
  sourceContainsTimestamp : Bool
  refclkNeedsCheck : Bool
  refLocked : Bool
  crashOnRefclkLoss : Bool
  lastTxTimeInitialised : Bool
  lastTxSecond : Nat
  lastTxPps : Nat
  sampleRate : Nat
  numFramesModulated : Nat
deriving DecidableEq

/-- What one `handle_frame` call does, reifying its exits: a thrown
reference-clock-loss error, an early return after `usleep(20000)` (invalid
timestamp, muting, or muted missing timestamps), a dropped past-timestamp
frame, a thrown far-future timestamp error, or a call to `tx_frame` with the
listed chunks. -/
inductive FrameOutcome
  | crashedRefclk
  | sleptMicroseconds (us : Nat)
  | droppedPastTimestamp
  | abortedFarFuture
  | sent (chunks : List TxChunk)
deriving DecidableEq

/-- `OutputUHD::handle_frame` (lines 709-834).  Control flow, in source
order: the `ref_locked` check (alert, and a throw when the configured
behaviour is CRASH); then, if the source carries timestamps: the
invalid-timestamp early return (`usleep(20000)`), the expected-timestamp
comparison via `tsExpected` with N = the frame's sample count (setting the
discontinuity flag passed to `tx_frame` as `ts_update`), the update of
`last_tx_second`/`last_tx_pps`, the past-timestamp drop
(`time_spec + 20 < usrp_time`) and the far-future throw
(`time_spec > usrp_time + TIMESTAMP_ABORT_FUTURE`); otherwise the
muting / mute-on-missing-timestamps early return (`usleep(20000)`); finally
`tx_frame`. -/
def handleFrame (st : TxLoopState) (fr : WorkerFrame) (usrpTime abortFuture : ℚ)
    (maxNumSamps : Nat) : FrameOutcome × TxLoopState :=
  if st.refclkNeedsCheck && !st.refLocked && st.crashOnRefclkLoss then
    (.crashedRefclk, st)
  else if st.sourceContainsTimestamp then
    if !fr.ts.timestampValid then (.sleptMicroseconds 20000, st)
    else
      let tsDisc := st.lastTxTimeInitialised &&
        !(decide (tsExpected st.lastTxSecond st.lastTxPps fr.buf.length st.sampleRate
            = (fr.ts.timestampSec, fr.ts.timestampPps)))
      let st' := { st with lastTxSecond := fr.ts.timestampSec,
                           lastTxPps := fr.ts.timestampPps,
                           lastTxTimeInitialised := true }
      let timeSpec : ℚ := (fr.ts.timestampSec : ℚ) + (fr.ts.timestampPps : ℚ) / 16384000
      if timeSpec + 20 < usrpTime then (.droppedPastTimestamp, st')
      else if usrpTime + abortFuture < timeSpec then (.abortedFarFuture, st')
      else
        (.sent (txFrameChunks st'.muting true fr.ts.timestampRefresh tsDisc
          fr.buf.length maxNumSamps timeSpec), st')
  else
    if st.muting || st.muteNoTimestamps then (.sleptMicroseconds 20000, st)
    else
      (.sent (txFrameChunks st.muting false fr.ts.timestampRefresh false
        fr.buf.length maxNumSamps 0), st)

/-- One iteration of the `OutputUHD::workerthread` loop (lines 683-704) after
popping `fr`: `handle_frame` runs, then `num_frames_modulated++` — reached on
every non-throwing exit, muted frames included — and the prebuffering level
for the next pop is recomputed from the underflow counters.  A throw
(`crashedRefclk` / `abortedFarFuture`) propagates out of the loop and skips
the increment. -/
def workerIteration (st : TxLoopState) (fr : WorkerFrame) (usrpTime abortFuture : ℚ)
    (maxNumSamps lastNumUnderflows numUnderflows : Nat) :
    FrameOutcome × TxLoopState × Nat :=
  let (outcome, st') := handleFrame st fr usrpTime abortFuture maxNumSamps
  let st'' :=
    match outcome with
    | .crashedRefclk => st'
    | .abortedFarFuture => st'
    | _ => { st' with numFramesModulated := st'.numFramesModulated + 1 }
  (outcome, st'', popPrebuffering lastNumUnderflows numUnderflows)

/-- A transmitter state for DAB mode 1 at 2 048 000 S/s with
`mute_no_timestamps` enabled and a timestamped source. -/
def txState0 : TxLoopState :=
  { muting := false
    muteNoTimestamps := true
    sourceContainsTimestamp := true
    refclkNeedsCheck := false
    refLocked := true
    crashOnRefclkLoss := false
    lastTxTimeInitialised := false
    lastTxSecond := 0
    lastTxPps := 0
    sampleRate := 2048000
    numFramesModulated := 41 }

/-- A frame with an invalid (incomplete) timestamp. -/
def invalidTsFrame : WorkerFrame :=
  ⟨[(1, 0), (0, 1)], ⟨false, false, 3, 0, 0⟩⟩

/-- C6 counterexample: in mode 1 (frame duration 96 ms) with
`mute_no_timestamps = true`, a frame with `timestamp_valid = false` makes the
worker sleep a fixed 20 000 µs — not the 96 000 µs transmission-frame
duration — and `num_frames_modulated` is incremented, not left unchanged. -/
theorem c6_mute_counterexample :
    (workerIteration txState0 invalidTsFrame 0 50 2500 0 0).1
      = .sleptMicroseconds 20000 ∧
    transmissionFrameDurationMs 1 = some 96 ∧
    ¬ (20000 : Nat) = 96 * 1000 ∧
    (workerIteration txState0 invalidTsFrame 0 50 2500 0 0).2.1.numFramesModulated
      = txState0.numFramesModulated + 1 := by decide

/-- C6 (amended): when a frame arrives without a valid timestamp and
`mute_no_timestamps` is enabled (and the reference-clock check does not
fire), no samples are sent to the SDR — the outcome is an early return that
slept a fixed 20 000 µs, regardless of the DAB mode's frame duration — and
the `frames_modulated` counter is incremented by one, not left unchanged. -/
theorem c6_mute_amended (st : TxLoopState) (fr : WorkerFrame)
    (usrpTime abortFuture : ℚ) (maxNumSamps lastNum num : Nat)
    (href : st.refclkNeedsCheck = false)
    (hmute : st.muteNoTimestamps = true)
    (hvalid : fr.ts.timestampValid = false) :
    (workerIteration st fr usrpTime abortFuture maxNumSamps lastNum num).1
      = .sleptMicroseconds 20000 ∧
    (workerIteration st fr usrpTime abortFuture maxNumSamps lastNum num).2.1.numFramesModulated
      = st.numFramesModulated + 1 := by
  have hh : handleFrame st fr usrpTime abortFuture maxNumSamps
      = (.sleptMicroseconds 20000, st) := by
    unfold handleFrame
    rw [href]
    simp only [Bool.false_and, Bool.false_eq_true, if_false]
    by_cases hsrc : st.sourceContainsTimestamp
    · rw [if_pos hsrc, hvalid]
      rfl
    · rw [if_neg hsrc, hmute, Bool.or_true]
      rfl
  unfold workerIteration
  rw [hh]
  exact ⟨rfl, rfl⟩

/-- Witness for `c6_mute_amended` at the concrete mode-1 state and frame. -/
theorem c6_mute_witness :
    (workerIteration txState0 invalidTsFrame 3 50 2500 1 1).1
      = .sleptMicroseconds 20000 ∧
    (workerIteration txState0 invalidTsFrame 3 50 2500 1 1).2.1.numFramesModulated
      = txState0.numFramesModulated + 1 :=
  c6_mute_amended txState0 invalidTsFrame 3 50 2500 1 1 rfl rfl rfl

/-! ## Feedback burst capture (`OutputUHDFeedback::set_tx_frame`,
OutputUHDFeedback.cpp lines 1319-1365 of the combined listing) -/

/-- The states of the feedback capture request. -/
inductive BurstRequestState
  | idle
  | saveTransmitFrame
  | saveReceiveFrame
  | acquired
deriving DecidableEq

/-- The burst request shared between the TX, RX and TCP threads.  Sample
buffers are modelled at complex-sample granularity (the byte buffers of the
source are multiples of `sizeof(complexf) = 8`, enforced there by a
`logic_error` throw). -/
structure BurstRequest where
  state : BurstRequestState
  numSamples : Nat
  txSamples : List (ℚ × ℚ)
  txSecond : Nat
  txPps : Nat
  rxSecond : Nat
  rxPps : Nat
deriving DecidableEq

/-- `OutputUHDFeedback::set_tx_frame`: when a request is in state
`SaveTransmitFrame`, it stores the trailing
`n = min(num_samples * sizeof(complexf), buf.size())` bytes of the frame —
`min req buf.length` samples, skipping `start_ix` leading samples — as the TX
capture, advances the timestamp by `start_ix / sampleRate` seconds (i.e. by
`start_ix` samples, via the spec's timestamp arithmetic `specAdvance`, which
models the missing `frame_timestamp::operator+=`), primes the RX timestamp
with the same value, and moves to `SaveReceiveFrame`.  In any other state the
frame is ignored. -/
def feedbackSetTxFrame (br : BurstRequest) (buf : List (ℚ × ℚ))
    (tsSec tsPps sampleRate : Nat) : BurstRequest :=
  if br.state = .saveTransmitFrame then
    let n := min br.numSamples buf.length
    let startIx := buf.length - n
    let ts' := specAdvance tsSec tsPps startIx sampleRate
    { br with numSamples := n,
              txSamples := buf.drop startIx,
              txSecond := ts'.1, txPps := ts'.2,
              rxSecond := ts'.1, rxPps := ts'.2,
              state := .saveReceiveFrame }
  else br

/-- C9: when the burst request is in state `SaveTransmitFrame`, the next frame
stores its trailing `min(requested, frame length)` samples as the TX capture
(a suffix of the frame of exactly that length), sets the capture timestamp to
the frame's timestamp advanced by the number of skipped leading samples at the
sample rate, and moves the request to `SaveReceiveFrame`. -/
theorem c9_set_tx_frame (br : BurstRequest) (buf : List (ℚ × ℚ))
    (tsSec tsPps sampleRate : Nat) (h : br.state = .saveTransmitFrame) :
    (feedbackSetTxFrame br buf tsSec tsPps sampleRate).txSamples.length
      = min br.numSamples buf.length ∧
    (feedbackSetTxFrame br buf tsSec tsPps sampleRate).txSamples <:+ buf ∧
    ((feedbackSetTxFrame br buf tsSec tsPps sampleRate).txSecond,
     (feedbackSetTxFrame br buf tsSec tsPps sampleRate).txPps)
      = specAdvance tsSec tsPps (buf.length - min br.numSamples buf.length) sampleRate ∧
    (feedbackSetTxFrame br buf tsSec tsPps sampleRate).state = .saveReceiveFrame := by
  unfold feedbackSetTxFrame
  rw [if_pos h]
  refine ⟨?_, ?_, rfl, rfl⟩
  · simp only [List.length_drop]
    omega
  · exact List.drop_suffix _ _

/-- Witness for `c9_set_tx_frame`: a pending 2-sample request against a
3-sample frame at 2 048 000 S/s; one leading sample is skipped, so the
timestamp advances by 8 ticks. -/
theorem c9_set_tx_frame_witness :
    (feedbackSetTxFrame ⟨.saveTransmitFrame, 2, [], 0, 0, 0, 0⟩
        [(1, 2), (3, 4), (5, 6)] 9 16383999 2048000).txSamples.length
      = min 2 3 ∧
    (feedbackSetTxFrame ⟨.saveTransmitFrame, 2, [], 0, 0, 0, 0⟩
        [(1, 2), (3, 4), (5, 6)] 9 16383999 2048000).txSamples
      <:+ [(1, 2), (3, 4), (5, 6)] ∧
    ((feedbackSetTxFrame ⟨.saveTransmitFrame, 2, [], 0, 0, 0, 0⟩
        [(1, 2), (3, 4), (5, 6)] 9 16383999 2048000).txSecond,
     (feedbackSetTxFrame ⟨.saveTransmitFrame, 2, [], 0, 0, 0, 0⟩
        [(1, 2), (3, 4), (5, 6)] 9 16383999 2048000).txPps)
      = specAdvance 9 16383999 (3 - min 2 3) 2048000 ∧
    (feedbackSetTxFrame ⟨.saveTransmitFrame, 2, [], 0, 0, 0, 0⟩
        [(1, 2), (3, 4), (5, 6)] 9 16383999 2048000).state = .saveReceiveFrame :=
  c9_set_tx_frame ⟨.saveTransmitFrame, 2, [], 0, 0, 0, 0⟩
    [(1, 2), (3, 4), (5, 6)] 9 16383999 2048000 rfl

/-! ## Lookup-table predistorter (`apply_lut`, MemlessPoly.cpp lines 238-269) -/

/-- The bin index computed by `apply_lut`: `lrintf(in_mag * scalefactor)` is a
C `long` (an arbitrary integer, the parameter `scaled`, covering every input
sample and scalefactor), converted to `uint32_t` — reduction modulo 2^32 —
and shifted right by 27 bits: `const uint8_t lut_ix = (scaled_in >> 27)`. -/
def lutIndex (scaled : Int) : Nat := (scaled % (4294967296 : Int)).toNat >>> 27

/-- One sample of `apply_lut`: `out[i] = in[i] * lut[lut_ix]` (complex
multiplication), with the table access modelled by `List.get?` so that an
out-of-bounds access would surface as `Option.none`. -/
def applyLutSample (lut : List (ℚ × ℚ)) (x : ℚ × ℚ) (scaled : Int) :
    Option (ℚ × ℚ) :=
  (lut.get? (lutIndex scaled)).map
    (fun c => (x.1 * c.1 - x.2 * c.2, x.1 * c.2 + x.2 * c.1))

theorem lutIndex_lt_32 (scaled : Int) : lutIndex scaled < 32 := by
  unfold lutIndex
  rw [Nat.shiftRight_eq_div_pow]
  have h1 : (scaled % (4294967296 : Int)).toNat < 4294967296 := by
    have h2 : 0 ≤ scaled % (4294967296 : Int) := Int.emod_nonneg scaled (by norm_num)
    have h3 : scaled % (4294967296 : Int) < 4294967296 :=
      Int.emod_lt_of_pos scaled (by norm_num)
    omega
  omega

/-- C10: for every input sample and every scalefactor — i.e. for every
possible value of the scaled magnitude `lrintf(in_mag * scalefactor)` — the
bin index of `apply_lut` is at most 31, so the access into the 32-entry
lookup table is always in bounds and the out-of-bounds branch is unreachable
even though the code performs no explicit clamping. -/
theorem c10_lut_index_in_bounds (lut : List (ℚ × ℚ)) (h : lut.length = lutEntries)
    (x : ℚ × ℚ) (scaled : Int) :
    lutIndex scaled < lut.length ∧ (applyLutSample lut x scaled).isSome = true := by
  have hlt : lutIndex scaled < lut.length := by
    rw [h]
    exact lutIndex_lt_32 scaled
  refine ⟨hlt, ?_⟩
  unfold applyLutSample
  rw [List.get?_eq_get hlt]
  rfl

/-- Witness for `c10_lut_index_in_bounds`: the all-ones 32-entry table and a
negative scaled magnitude (which the `uint32_t` conversion wraps to a value in
the top bin). -/
theorem c10_lut_index_witness :
    lutIndex (-5) < (List.replicate 32 ((1 : ℚ), (0 : ℚ))).length ∧
    (applyLutSample (List.replicate 32 ((1 : ℚ), (0 : ℚ))) (3, 4) (-5)).isSome
      = true :=
  c10_lut_index_in_bounds (List.replicate 32 ((1 : ℚ), (0 : ℚ)))
    (by simp [lutEntries]) (3, 4) (-5)

end ODRDabMod
